import Mathlib

/-!
Verification of `sway-screens`, a Wayland output-management client.

The development shallowly embeds the protocol event-assembly engine of
`src/wlr.rs` (together with the per-interface `Dispatch` handlers in
`src/wlr/output_manager.rs`, `src/wlr/output_head.rs`,
`src/wlr/output_mode.rs`), the CLI argument parser `src/setup.rs`, and the
output-arrangement logic of `main` in `src/main.rs`.

Rust `FxHashMap`s keyed by wayland `ObjectId` are embedded as association
lists with overwrite-on-insert semantics; `ObjectId` is embedded as `Nat`.
The `f64` scale is embedded as `Rat` (no claim performs floating-point
arithmetic on it; it is only stored and copied).
-/

namespace SwayScreens

/-- Wayland object identifier (`wayland_client::backend::ObjectId`). -/
abbrev ObjectId := Nat

/-- `screens::Resolution`: width and height as `i32`. -/
structure Resolution where
  width : Int
  height : Int
deriving DecidableEq, Repr

/-- `screens::Mode`. -/
structure Mode where
  resolution : Resolution
  refresh : Int
  preferred : Bool
deriving DecidableEq, Repr

/-- `screens::Position`. -/
structure Position where
  x : Int
  y : Int
deriving DecidableEq, Repr

/-- `screens::Output`. `scale : f64` is embedded as `Rat`. -/
structure Output where
  name : String
  enabled : Bool
  description : String
  current_mode : Option Mode
  preferred_mode : Option Mode
  modes : List Mode
  position : Option Position
  scale : Rat
deriving DecidableEq, Repr

/-- Lookup in an association-list embedding of `FxHashMap` (`map.get`). -/
def mapLookup {α : Type} (m : List (ObjectId × α)) (k : ObjectId) : Option α :=
  match m with
  | [] => none
  | (k', v) :: rest => if k' = k then some v else mapLookup rest k

/-- Insert with overwrite (`FxHashMap::insert`). -/
def mapInsert {α : Type} (m : List (ObjectId × α)) (k : ObjectId) (v : α) :
    List (ObjectId × α) :=
  match m with
  | [] => [(k, v)]
  | (k', v') :: rest =>
    if k' = k then (k, v) :: rest else (k', v') :: mapInsert rest k v

/-- In-place mutation through `FxHashMap::get_mut(..).map(..)`: `none` when
the key is absent (the handlers then only log a warning). -/
def mapModify {α : Type} (m : List (ObjectId × α)) (k : ObjectId) (f : α → α) :
    Option (List (ObjectId × α)) :=
  match m with
  | [] => none
  | (k', v) :: rest =>
    if k' = k then some ((k', f v) :: rest)
    else (mapModify rest k f).map (fun r => (k', v) :: r)

/-- `wlr::OutputQueryState`. -/
structure OutputQueryState where
  running : Bool
  outputs : List (ObjectId × Output)
  modes : List (ObjectId × Mode)
  output_to_modes : List (ObjectId × List ObjectId)
  outputs_current_mode : List (ObjectId × ObjectId)
  capabilities : List String
  finalised_output : List Output
deriving DecidableEq, Repr

/-- `OutputQueryState::find_current_mode`. -/
def find_current_mode (s : OutputQueryState) (id : ObjectId) : Option Mode :=
  (mapLookup s.outputs_current_mode id).bind (fun mode_id => mapLookup s.modes mode_id)

/-- `OutputQueryState::find_modes_for_output`. -/
def find_modes_for_output (s : OutputQueryState) (id : ObjectId) : List Mode :=
  match mapLookup s.output_to_modes id with
  | some mode_ids => mode_ids.filterMap (fun mode_id => mapLookup s.modes mode_id)
  | none => []

/-- `OutputQueryState::finalise_output`. -/
def finalise_output (s : OutputQueryState) (id : ObjectId) (output : Output) : Output :=
  let modes := find_modes_for_output s id
  { name := output.name
    enabled := output.enabled
    description := output.description
    current_mode := find_current_mode s id
    preferred_mode := modes.find? (fun mode => mode.preferred)
    modes := modes
    position := output.position
    scale := output.scale }

/-- `OutputQueryState::finalise`.  The Rust code iterates the `outputs`
`FxHashMap`; the embedding iterates the association list. -/
def finalise (s : OutputQueryState) : OutputQueryState :=
  { s with
    running := false
    finalised_output := s.outputs.map (fun p => finalise_output s p.1 p.2) }

/-- The default `Output` inserted by the `Event::Head` branch of
`Dispatch<ZwlrOutputManagerV1>::event`. -/
def defaultOutput : Output :=
  { name := "unknown"
    description := ""
    position := none
    modes := []
    enabled := false
    current_mode := none
    preferred_mode := none
    scale := 1 }

/-- The default `Mode` inserted by the `Event::Mode` branch of
`Dispatch<ZwlrOutputHeadV1>::event`. -/
def defaultMode : Mode :=
  { resolution := { width := 0, height := 0 }, refresh := 0, preferred := false }

/-- The protocol events dispatched into `OutputQueryState`, one constructor
per handled event branch of the three `Dispatch` impls. -/
inductive WlrEvent where
  | headCreated (head : ObjectId)
  | headName (head : ObjectId) (name : String)
  | headEnabled (head : ObjectId) (enabled : Int)
  | headDescription (head : ObjectId) (description : String)
  | headScale (head : ObjectId) (scale : Rat)
  | headPosition (head : ObjectId) (x y : Int)
  | headMode (head : ObjectId) (mode : ObjectId)
  | headCurrentMode (head : ObjectId) (mode : ObjectId)
  | modeSize (mode : ObjectId) (width height : Int)
  | modeRefresh (mode : ObjectId) (refresh : Int)
  | modePreferred (mode : ObjectId)
  | managerDone (serial : Nat)
deriving DecidableEq, Repr

/-- One dispatch step: the union of the `event` methods of
`Dispatch<ZwlrOutputManagerV1>`, `Dispatch<ZwlrOutputHeadV1>` and
`Dispatch<ZwlrOutputModeV1>` for `OutputQueryState`.  A `mapModify`
returning `none` is the "unknown object: warn and do nothing" path. -/
def step (s : OutputQueryState) (e : WlrEvent) : OutputQueryState :=
  match e with
  | .headCreated h =>
    { s with
      outputs := mapInsert s.outputs h defaultOutput
      output_to_modes := mapInsert s.output_to_modes h [] }
  | .managerDone _ => finalise s
  | .headName h n =>
    match mapModify s.outputs h (fun o => { o with name := n }) with
    | some m => { s with outputs := m }
    | none => s
  | .headEnabled h v =>
    match mapModify s.outputs h (fun o => { o with enabled := v == 1 }) with
    | some m => { s with outputs := m }
    | none => s
  | .headDescription h d =>
    match mapModify s.outputs h (fun o => { o with description := d }) with
    | some m => { s with outputs := m }
    | none => s
  | .headScale h sc =>
    match mapModify s.outputs h (fun o => { o with scale := sc }) with
    | some m => { s with outputs := m }
    | none => s
  | .headPosition h x y =>
    match mapModify s.outputs h (fun o => { o with position := some { x := x, y := y } }) with
    | some m => { s with outputs := m }
    | none => s
  | .headMode h m =>
    let s' := { s with modes := mapInsert s.modes m defaultMode }
    match mapModify s'.output_to_modes h (fun mode_ids => mode_ids ++ [m]) with
    | some t => { s' with output_to_modes := t }
    | none => s'
  | .headCurrentMode h m =>
    { s with outputs_current_mode := mapInsert s.outputs_current_mode h m }
  | .modeSize m w hgt =>
    match mapModify s.modes m
        (fun mo => { mo with resolution := { width := w, height := hgt } }) with
    | some t => { s with modes := t }
    | none => s
  | .modeRefresh m r =>
    match mapModify s.modes m (fun mo => { mo with refresh := r }) with
    | some t => { s with modes := t }
    | none => s
  | .modePreferred m =>
    match mapModify s.modes m (fun mo => { mo with preferred := true }) with
    | some t => { s with modes := t }
    | none => s

/-- The fresh state built at the start of `WlrOutputManager::get_outputs`. -/
def emptyState : OutputQueryState :=
  { running := true
    outputs := []
    capabilities := []
    output_to_modes := []
    modes := []
    outputs_current_mode := []
    finalised_output := [] }

/-- `char::to_digit(10)` on a `char`: the value of an ASCII decimal digit,
`none` otherwise. -/
def charToDigit (c : Char) : Option Nat :=
  if c.isDigit then some (c.toNat - 48) else none

/-- The digit-collecting traversal inside `setup::parse_setup`
(`arg[0].chars().map(..).collect::<Result<Vec<usize>>>()`): left-to-right,
short-circuiting on the first non-digit. -/
def collectDigits (cs : List Char) : Except String (List Nat) :=
  match cs with
  | [] => .ok []
  | c :: rest =>
    match charToDigit c with
    | some d => (collectDigits rest).map (fun ds => d :: ds)
    | none => .error ("char " ++ String.singleton c ++ " not a digit")

/-- `setup::parse_setup`. -/
def parse_setup (arg : List String) : Except String (List Nat) :=
  match arg with
  | [] => .ok []
  | a :: _ => collectDigits a.data

/-- One IPC-backend call issued by `main`: `disable_output` on the output at
a given index of the finalized list, or `enable_output` at a position. -/
inductive Action where
  | disable (index : Nat)
  | enable (index : Nat) (position : Position)
deriving DecidableEq, Repr

/-- How the post-discovery part of `main` ends abnormally. -/
inductive RunError where
  | usage (setupLen outputLen : Nat)
  | panic
deriving DecidableEq, Repr

/-- The enable loop of `main` (`let mut x: i32 = 0; for screen in setup ...`):
`outputs[*screen]` panics when the index is out of bounds; otherwise `x` is
set to the width of the preferred-else-current mode (if any) and the output
is enabled at `(x, 0)`.  Note the code updates `x` before the
`enable_output` call. -/
def enableLoop (outputs : List Output) (setup : List Nat) (x : Int) :
    Except RunError (List Action) :=
  match setup with
  | [] => .ok []
  | screen :: rest =>
    match outputs[screen]? with
    | none => .error .panic
    | some output =>
      let x' :=
        match output.preferred_mode.or output.current_mode with
        | some mode => mode.resolution.width
        | none => x
      (enableLoop outputs rest x').map (fun acts => .enable screen ⟨x', 0⟩ :: acts)

/-- The part of `main` that follows output discovery (src/main.rs lines
455-479): the count check, the disable loop over outputs whose index is not
in `setup` (run only when `setup` is non-empty), then the enable loop. -/
def runSetup (setup : List Nat) (outputs : List Output) :
    Except RunError (List Action) :=
  if setup.length > outputs.length then
    .error (.usage setup.length outputs.length)
  else
    let disables :=
      if setup.isEmpty then []
      else
        (List.range outputs.length).filterMap
          (fun i => if setup.contains i then none else some (Action.disable i))
    (enableLoop outputs setup 0).map (fun enables => disables ++ enables)

/-- The four registries owned by the dispatch state machine, as a value: the
Head Registry, the Mode Registry, the head-to-modes map and the current-mode
map.  Used to speak about "the registries" independently of the
running/finished flag and the finalized list. -/
structure Registries where
  outputs : List (ObjectId × Output)
  modes : List (ObjectId × Mode)
  output_to_modes : List (ObjectId × List ObjectId)
  outputs_current_mode : List (ObjectId × ObjectId)
deriving DecidableEq, Repr

/-- Project the registries out of a dispatch state. -/
def regs (s : OutputQueryState) : Registries :=
  { outputs := s.outputs
    modes := s.modes
    output_to_modes := s.output_to_modes
    outputs_current_mode := s.outputs_current_mode }

/-- The head identifier targeted by a head-attribute event
(name/enabled/description/scale/position), `none` for other events. -/
def headAttrTarget : WlrEvent → Option ObjectId
  | .headName h _ => some h
  | .headEnabled h _ => some h
  | .headDescription h _ => some h
  | .headScale h _ => some h
  | .headPosition h _ _ => some h
  | _ => none

/-- The mode identifier targeted by a mode-attribute event
(size/refresh/preferred), `none` for other events. -/
def modeAttrTarget : WlrEvent → Option ObjectId
  | .modeSize m _ _ => some m
  | .modeRefresh m _ => some m
  | .modePreferred m => some m
  | _ => none

/-- A 1920×1080 mode at 144 Hz (144000 mHz), not preferred. -/
def mA : Mode :=
  { resolution := { width := 1920, height := 1080 }, refresh := 144000, preferred := false }

/-- A 1920×1080 mode at 60 Hz (60000 mHz), preferred. -/
def mB : Mode :=
  { resolution := { width := 1920, height := 1080 }, refresh := 60000, preferred := true }

/-- A concrete mid-query state: one head `1` with registered mode ids
`[10, 11, 12]` of which `12` never resolved, and a current-mode id `99`
that never resolved. -/
def sampleState : OutputQueryState :=
  { running := true
    outputs := [(1, defaultOutput)]
    modes := [(10, mA), (11, mB)]
    output_to_modes := [(1, [10, 11, 12])]
    outputs_current_mode := [(1, 99)]
    capabilities := []
    finalised_output := [] }

/-- A finalized output whose preferred mode has the given width. -/
def outW (w : Int) : Output :=
  { name := "output"
    enabled := true
    description := ""
    current_mode := none
    preferred_mode := some
      { resolution := { width := w, height := 1080 }, refresh := 60000, preferred := true }
    modes := []
    position := none
    scale := 1 }

theorem mapLookup_mapInsert_self {α : Type} (m : List (ObjectId × α)) (k : ObjectId) (v : α) :
    mapLookup (mapInsert m k v) k = some v := by
  induction m with
  | nil => simp [mapInsert, mapLookup]
  | cons p rest ih =>
    by_cases hk : p.1 = k
    · simp [mapInsert, mapLookup, hk]
    · simp [mapInsert, mapLookup, hk, ih]

theorem mapModify_of_lookup_none {α : Type} (m : List (ObjectId × α)) (k : ObjectId)
    (f : α → α) (h : mapLookup m k = none) : mapModify m k f = none := by
  induction m with
  | nil => simp [mapModify]
  | cons p rest ih =>
    by_cases hk : p.1 = k
    · simp [mapLookup, hk] at h
    · simp [mapLookup, hk] at h
      simp [mapModify, hk, ih h]

theorem collectDigits_ok (cs : List Char) (h : ∀ c ∈ cs, c.isDigit) :
    collectDigits cs = .ok (cs.map (fun c => c.toNat - 48)) := by
  induction cs with
  | nil => simp [collectDigits]
  | cons c rest ih =>
    have hc : c.isDigit := h c (List.mem_cons_self c rest)
    have hrest : ∀ c ∈ rest, c.isDigit := fun c hm => h c (List.mem_cons_of_mem _ hm)
    simp [collectDigits, charToDigit, hc, ih hrest, Except.map]

theorem collectDigits_error (cs : List Char) (h : ∃ c ∈ cs, ¬ c.isDigit) :
    ∃ msg, collectDigits cs = .error msg := by
  induction cs with
  | nil => simp at h
  | cons c rest ih =>
    by_cases hc : c.isDigit
    · obtain ⟨c', hmem, hnd⟩ := h
      rcases List.mem_cons.mp hmem with heq | hmem'
      · exact absurd hc (heq ▸ hnd)
      · obtain ⟨msg, hmsg⟩ := ih ⟨c', hmem', hnd⟩
        exact ⟨msg, by simp [collectDigits, charToDigit, hc, hmsg, Except.map]⟩
    · exact ⟨"char " ++ String.singleton c ++ " not a digit",
        by simp [collectDigits, charToDigit, hc]⟩

theorem enableLoop_panic (outputs : List Output) (setup : List Nat) (x : Int)
    (h : ∃ i ∈ setup, outputs.length ≤ i) :
    enableLoop outputs setup x = .error .panic := by
  induction setup generalizing x with
  | nil => simp at h
  | cons s rest ih =>
    cases houts : outputs[s]? with
    | none => simp [enableLoop, houts]
    | some o =>
      have hs : s < outputs.length := by
        rcases List.getElem?_eq_some.mp houts with ⟨hlt, _⟩
        exact hlt
      obtain ⟨i, hmem, hge⟩ := h
      rcases List.mem_cons.mp hmem with heq | hmem'
      · omega
      · simp [enableLoop, houts, ih _ ⟨i, hmem', hge⟩, Except.map]

theorem head_attr_unknown_noop (s : OutputQueryState) (e : WlrEvent) (hd : ObjectId)
    (hht : headAttrTarget e = some hd) (hlk : mapLookup s.outputs hd = none) :
    step s e = s := by
  cases e <;> simp [headAttrTarget] at hht <;>
    (subst hht; simp [step, mapModify_of_lookup_none _ _ _ hlk])

theorem mode_attr_unknown_noop (s : OutputQueryState) (e : WlrEvent) (md : ObjectId)
    (hmt : modeAttrTarget e = some md) (hlk : mapLookup s.modes md = none) :
    step s e = s := by
  cases e <;> simp [modeAttrTarget] at hmt <;>
    (subst hmt; simp [step, mapModify_of_lookup_none _ _ _ hlk])

/-- Claim C2 (counterexample): after the batch-completion signal the state
machine is in `Finalized` (`running = false`), yet a subsequently received
head-creation event still mutates the Head Registry, so events in
`Finalized` are not no-ops. -/
theorem finalized_head_event_mutates :
    (step emptyState (.managerDone 0)).running = false ∧
    (step (step emptyState (.managerDone 0)) (.headCreated 1)).outputs ≠
      (step emptyState (.managerDone 0)).outputs := by
  decide

/-- Claim C2 (amended): the event handlers never consult the
running/finished flag: an event applied to a `Finalized` state mutates the
four registries exactly as the same event applied during `Collecting`
would; the flag only terminates the dispatch loop. -/
theorem handlers_ignore_finalized_flag (s : OutputQueryState) (b : Bool) (e : WlrEvent) :
    regs (step { s with running := b } e) = regs (step s e) := by
  cases e <;> dsimp only [step, finalise] <;>
    first
      | rfl
      | (split <;> rfl)

/-- Claim C3 (counterexample): a mode-creation event whose head identifier
is unknown still inserts the default mode into the Mode Registry; the
registries are not all left unchanged. -/
theorem mode_for_unknown_head_mutates_registry :
    mapLookup emptyState.output_to_modes 1 = none ∧
    (step emptyState (.headMode 1 2)).modes ≠ emptyState.modes := by
  decide

/-- Claim C3 (amended): on a ModeCreated event whose head identifier is
absent from the head-to-modes map, a warning is logged and the mode id is
appended to no head's list — the Head Registry, head-to-modes map and
current-mode map are unchanged — but the default Mode entry is still
inserted into the Mode Registry keyed by the mode identifier. -/
theorem mode_for_unknown_head_inserts_mode (s : OutputQueryState) (h m : ObjectId)
    (hno : mapLookup s.output_to_modes h = none) :
    step s (.headMode h m) = { s with modes := mapInsert s.modes m defaultMode } := by
  have hmod := mapModify_of_lookup_none s.output_to_modes h (fun l => l ++ [m]) hno
  simp [step, hmod]

/-- Claim C3 (amended, witness): concrete unknown-head mode creation. -/
theorem mode_for_unknown_head_inserts_mode_witness :
    step emptyState (.headMode 1 2) =
      { emptyState with modes := mapInsert emptyState.modes 2 defaultMode } :=
  mode_for_unknown_head_inserts_mode emptyState 1 2 rfl

/-- Claim C4 (counterexample): re-creating head `1` after a current-mode
event does not clear the recorded current-mode identifier, so the head does
not hold the default entry with an absent `current_mode_id`. -/
theorem head_recreation_keeps_current_mode :
    mapLookup (step (step (step emptyState (.headCreated 1)) (.headCurrentMode 1 5))
        (.headCreated 1)).outputs_current_mode 1 = some 5 := by
  decide

/-- Claim C4 (amended): after HeadCreated(h) the head keyed by `h` holds the
default entry (name "unknown", description empty, enabled false, scale 1,
no position) and an empty mode-id list, overwriting any prior entry; but
the current-mode map is untouched, so a previously recorded
`current_mode_id` for `h` survives re-creation. -/
theorem head_created_overwrites_defaults (s : OutputQueryState) (h : ObjectId) :
    mapLookup (step s (.headCreated h)).outputs h = some
      { name := "unknown", enabled := false, description := "", current_mode := none,
        preferred_mode := none, modes := [], position := none, scale := 1 } ∧
    mapLookup (step s (.headCreated h)).output_to_modes h = some [] ∧
    (step s (.headCreated h)).outputs_current_mode = s.outputs_current_mode := by
  refine ⟨?_, ?_, rfl⟩
  · simpa [step, defaultOutput] using mapLookup_mapInsert_self s.outputs h defaultOutput
  · simpa [step] using mapLookup_mapInsert_self s.output_to_modes h []

/-- Claim C5: at finalization an Output's `modes` list is exactly the modes
whose identifiers were registered to that head and which resolve in the
Mode Registry, in registration (creation) order — unresolvable identifiers
are dropped; an absent or unresolvable current-mode identifier yields an
absent `current_mode`, never a failure. -/
theorem modes_resolution_spec (s : OutputQueryState) (id : ObjectId) (o : Output)
    (regd : List ObjectId) (hreg : mapLookup s.output_to_modes id = some regd) :
    (finalise_output s id o).modes =
      regd.filterMap (fun mode_id => mapLookup s.modes mode_id) ∧
    (mapLookup s.outputs_current_mode id = none →
      (finalise_output s id o).current_mode = none) ∧
    (∀ cm, mapLookup s.outputs_current_mode id = some cm → mapLookup s.modes cm = none →
      (finalise_output s id o).current_mode = none) := by
  refine ⟨?_, ?_, ?_⟩
  · simp [finalise_output, find_modes_for_output, hreg]
  · intro hc
    simp [finalise_output, find_current_mode, hc]
  · intro cm hc hm
    simp [finalise_output, find_current_mode, hc, hm]

/-- Claim C5 (witness): head `1` of `sampleState` registered `[10, 11, 12]`;
`12` does not resolve and is dropped, and the unresolvable current-mode id
`99` yields an absent `current_mode`. -/
theorem modes_resolution_spec_witness :
    (finalise_output sampleState 1 defaultOutput).modes = [mA, mB] ∧
    (finalise_output sampleState 1 defaultOutput).current_mode = none := by
  have h := modes_resolution_spec sampleState 1 defaultOutput [10, 11, 12] (by decide)
  exact ⟨h.1.trans (by decide), h.2.2 99 (by decide) (by decide)⟩

/-- Claim C6: a finalized Output's `preferred_mode` is the first element of
its `modes` list whose `preferred` flag is set (absent when none is), and
it is independent of the current-mode map: any state with the same Mode
Registry and head-to-modes map yields the same `preferred_mode`. -/
theorem preferred_mode_spec (s : OutputQueryState) (id : ObjectId) (o : Output) :
    (finalise_output s id o).preferred_mode =
      List.find? (fun mode => mode.preferred) (finalise_output s id o).modes ∧
    (∀ (t : OutputQueryState) (o' : Output), t.modes = s.modes →
      t.output_to_modes = s.output_to_modes →
      (finalise_output t id o').preferred_mode = (finalise_output s id o).preferred_mode) := by
  constructor
  · rfl
  · intro t o' hm ho
    simp [finalise_output, find_modes_for_output, hm, ho]

/-- Claim C6 (witness): in `sampleState` the preferred mode is `mB`, the
first (and only) flagged mode, although the current-mode id points
elsewhere; erasing the current-mode map does not change it. -/
theorem preferred_mode_spec_witness :
    (finalise_output sampleState 1 defaultOutput).preferred_mode = some mB ∧
    (finalise_output { sampleState with outputs_current_mode := [] } 1
        defaultOutput).preferred_mode =
      (finalise_output sampleState 1 defaultOutput).preferred_mode := by
  have h := preferred_mode_spec sampleState 1 defaultOutput
  exact ⟨h.1.trans (by decide),
    h.2 { sampleState with outputs_current_mode := [] } defaultOutput rfl rfl⟩

/-- Claim C7: a head-attribute or mode-attribute event whose identifier was
never created leaves the whole dispatch state unchanged (the handler only
logs a warning): the Head Registry, Mode Registry, head-to-modes map and
current-mode map are all untouched. -/
theorem unknown_attribute_noop (s : OutputQueryState) (e : WlrEvent)
    (h : (∃ hd, headAttrTarget e = some hd ∧ mapLookup s.outputs hd = none) ∨
         (∃ md, modeAttrTarget e = some md ∧ mapLookup s.modes md = none)) :
    step s e = s := by
  rcases h with ⟨hd, hht, hlk⟩ | ⟨md, hmt, hlk⟩
  · exact head_attr_unknown_noop s e hd hht hlk
  · exact mode_attr_unknown_noop s e md hmt hlk

/-- Claim C7 (witness): a name event for never-created head `3` and a size
event for never-created mode `7` both leave the fresh state unchanged. -/
theorem unknown_attribute_noop_witness :
    step emptyState (.headName 3 "DP-1") = emptyState ∧
    step emptyState (.modeSize 7 1920 1080) = emptyState :=
  ⟨unknown_attribute_noop emptyState (.headName 3 "DP-1") (Or.inl ⟨3, rfl, rfl⟩),
   unknown_attribute_noop emptyState (.modeSize 7 1920 1080) (Or.inr ⟨7, rfl, rfl⟩)⟩

/-- Claim C8: `parse_setup` returns the empty selection for an empty
argument list, the zero-based digit values in order for an all-digit
string, and an error for a string containing a non-digit; and a selection
longer than the discovered output list is rejected as a usage error with no
enable/disable action issued. -/
theorem parse_and_count_check :
    parse_setup [] = .ok [] ∧
    (∀ (a : String) (rest : List String), (∀ c ∈ a.data, c.isDigit) →
      parse_setup (a :: rest) = .ok (a.data.map (fun c => c.toNat - 48))) ∧
    (∀ (a : String) (rest : List String), (∃ c ∈ a.data, ¬ c.isDigit) →
      ∃ msg, parse_setup (a :: rest) = .error msg) ∧
    (∀ (setup : List Nat) (outputs : List Output), outputs.length < setup.length →
      runSetup setup outputs = .error (.usage setup.length outputs.length)) := by
  refine ⟨rfl, ?_, ?_, ?_⟩
  · intro a rest h
    simpa [parse_setup] using collectDigits_ok a.data h
  · intro a rest h
    simpa [parse_setup] using collectDigits_error a.data h
  · intro setup outputs h
    simp [runSetup, h]

/-- Claim C8 (witness): "12" parses to `[1, 2]`, "1a" is a parse error, and
selecting three outputs when none were discovered is a usage error. -/
theorem parse_and_count_check_witness :
    parse_setup ["12"] = .ok [1, 2] ∧
    (∃ msg, parse_setup ["1a"] = .error msg) ∧
    runSetup [0, 1, 2] [] = .error (.usage 3 0) := by
  refine ⟨?_, ?_, ?_⟩
  · exact (parse_and_count_check.2.1 "12" [] (by decide)).trans (by rfl)
  · exact parse_and_count_check.2.2.1 "1a" [] ⟨'a', by decide, by decide⟩
  · exact parse_and_count_check.2.2.2 [0, 1, 2] [] (by decide)

/-- Claim C10: when the parsed selection contains an index at or beyond the
number of discovered outputs while its length does not exceed that number,
`main` reaches the enable loop (the count check passes) and panics on the
out-of-bounds indexing `outputs[*screen]` instead of reporting a usage
error. -/
theorem oob_index_panics (setup : List Nat) (outputs : List Output)
    (hlen : setup.length ≤ outputs.length)
    (hbad : ∃ i ∈ setup, outputs.length ≤ i) :
    runSetup setup outputs = .error .panic := by
  have hnot : ¬ outputs.length < setup.length := Nat.not_lt.mpr hlen
  simp [runSetup, hnot, enableLoop_panic outputs setup 0 hbad, Except.map]

/-- Claim C10 (witness): argument "9" with two discovered outputs panics. -/
theorem oob_index_panics_witness :
    runSetup [9] [outW 1000, outW 800] = .error .panic :=
  oob_index_panics [9] [outW 1000, outW 800] (by decide) ⟨9, by decide, by decide⟩

/-- Claim C1 (failing evaluation): CLI argument "02" with three discovered
outputs whose placement modes have widths 1000, 800 and 500.  Output 1 is
disabled and outputs 0 and 2 are enabled in order, but output 0 is enabled
at x = 1000 (the width of its own placement mode, assigned to `x` before
the `enable_output` call) rather than at x = 0, and output 2 at x = 500
(again its own width) rather than at the previous output's width. -/
theorem scenario_d_first_output_offset :
    parse_setup ["02"] = .ok [0, 2] ∧
    runSetup [0, 2] [outW 1000, outW 800, outW 500] =
      .ok [.disable 1, .enable 0 { x := 1000, y := 0 }, .enable 2 { x := 500, y := 0 }] :=
  ⟨rfl, rfl⟩

end SwayScreens
